import Mathlib

/-!
Verification of the EduResult record-management core (src/index.tsx).

The embedding below translates the pure logic of the source file into Lean:

* JavaScript numbers are embedded as rationals (`ℚ`); every numeric value the
  claims exercise is exactly representable, and `Number((x).toFixed(2))` is
  embedded as round-half-up to two decimals (`toFixed2`).
* JavaScript values that may sit in a `marks` slot at runtime are embedded as
  `JSVal`: either a numeric value (constructor `num`, covering numbers and
  numeric-coercible values, carrying `Number(v)`) or a non-numeric value
  (constructor `nonnum`, any `v` with `Number(v) = NaN`).
* Absent object fields (TypeScript optional fields / absent JSON keys) are
  embedded as `Option`.
* Thrown JavaScript exceptions are embedded as `Except.error`.
-/

namespace EduResult

/-- A JavaScript value found in a marks slot: numeric (with its `Number` value)
or non-numeric (`Number` gives `NaN`). -/
inductive JSVal where
  | num (q : ℚ)
  | nonnum
deriving DecidableEq, Repr

/-- Embeds the JS expression `Number(b) || 0`: a numeric value stands, a
non-numeric value (whose `Number` is `NaN`, which is falsy) becomes `0`;
`Number(0) = 0` is falsy and also yields `0`. -/
def jsNumOr0 : JSVal → ℚ
  | .num q => q
  | .nonnum => 0

/-- A runtime `marks` object: each of the five fixed subject keys may be
absent (`none`) or hold an arbitrary JS value.  The TypeScript interface
`Marks` promises five numbers, but `processStudentData` accepts
`Partial<Student>` whose `marks` may, at runtime (e.g. from parsed JSON),
be partially populated or hold non-numeric values. -/
structure MarksObj where
  math : Option JSVal
  science : Option JSVal
  english : Option JSVal
  history : Option JSVal
  computer : Option JSVal
deriving DecidableEq, Repr

/-- `Object.values(m)`: the values of the present keys, in key order. -/
def MarksObj.values (m : MarksObj) : List JSVal :=
  [m.math, m.science, m.english, m.history, m.computer].filterMap id

/-- The default marks object `{ math: 0, science: 0, english: 0, history: 0,
computer: 0 }` from line 165 of the source. -/
def zeroMarks : MarksObj :=
  ⟨some (.num 0), some (.num 0), some (.num 0), some (.num 0), some (.num 0)⟩

/-- A fully populated integer marks object, as entered through the form. -/
def MarksObj.ofInts (a b c d e : ℤ) : MarksObj :=
  ⟨some (.num a), some (.num b), some (.num c), some (.num d), some (.num e)⟩

/-- The input type of `processStudentData`: `Partial<Student>`, every field
possibly absent. -/
structure StudentInput where
  id : Option String
  name : Option String
  rollNo : Option String
  className : Option String
  examName : Option String
  marks : Option MarksObj
deriving DecidableEq, Repr

/-- The output type of `processStudentData`: the `Student` interface. -/
structure Student where
  id : String
  name : String
  rollNo : String
  className : String
  examName : String
  marks : MarksObj
  total : ℚ
  percentage : ℚ
  grade : String
deriving DecidableEq, Repr

/-- The `Exam` interface. -/
structure Exam where
  id : String
  name : String
  createdAt : String
deriving DecidableEq, Repr

/-- JS string-or-default `x || d`: `undefined` and the empty string are falsy. -/
def jsOrStr (x : Option String) (d : String) : String :=
  match x with
  | none => d
  | some s => if s = "" then d else s

/-- `Number((q).toFixed(2))` for the values arising here: round half up to two
decimal places. -/
def toFixed2 (q : ℚ) : ℚ :=
  (⌊q * 100 + 1 / 2⌋ : ℚ) / 100

/-- `calculateGrade` (source lines 155-162), verbatim threshold chain. -/
def calculateGrade (percentage : ℚ) : String :=
  if percentage ≥ 90 then "A+"
  else if percentage ≥ 80 then "A"
  else if percentage ≥ 70 then "B"
  else if percentage ≥ 55 then "C"
  else if percentage ≥ 35 then "D"
  else "F"

/-- `Object.values(m).reduce((a, b) => a + (Number(b) || 0), 0)` (line 166). -/
def marksReduce (m : MarksObj) : ℚ :=
  m.values.foldl (fun a b => a + jsNumOr0 b) 0

/-- `processStudentData` (source lines 164-180).  `crypto.randomUUID()` is
nondeterministic, so the freshly generated id is passed as the argument
`freshId`; a real UUID is a nonempty string. -/
def processStudentData (freshId : String) (data : StudentInput) : Student :=
  let m := data.marks.getD zeroMarks
  let total := marksReduce m
  let percentage := toFixed2 (total / 5)
  { id := jsOrStr data.id freshId
    name := jsOrStr data.name ""
    rollNo := jsOrStr data.rollNo ""
    className := jsOrStr data.className ""
    examName := jsOrStr data.examName "Standard Exam"
    marks := m
    total := total
    percentage := percentage
    grade := calculateGrade percentage }

/-- Reading a `Student` back as a `Partial<Student>` argument: every field is
present (the extra derived fields `total`/`percentage`/`grade` in the spread
are overwritten by `processStudentData` and play no role). -/
def Student.asInput (s : Student) : StudentInput :=
  ⟨some s.id, some s.name, some s.rollNo, some s.className, some s.examName, some s.marks⟩

/-- The sum of the five subject slots with absent keys and non-numeric values
counted as `0`. -/
def marksTotal (m : MarksObj) : ℚ :=
  (m.math.map jsNumOr0).getD 0 + (m.science.map jsNumOr0).getD 0 +
    (m.english.map jsNumOr0).getD 0 + (m.history.map jsNumOr0).getD 0 +
    (m.computer.map jsNumOr0).getD 0

lemma marksReduce_eq_marksTotal (m : MarksObj) : marksReduce m = marksTotal m := by
  obtain ⟨a, b, c, d, e⟩ := m
  cases a <;> cases b <;> cases c <;> cases d <;> cases e <;>
    simp [marksReduce, marksTotal, MarksObj.values, List.foldl]

/-! ### Record store and App-level handlers -/

/-- The in-memory collections held by `App` (`students`/`exams` state). -/
structure AppState where
  students : List Student
  exams : List Exam
deriving DecidableEq, Repr

/-- `onDeleteExam` (source lines 686-690): look the exam up by id, drop every
exam with that id, and drop every student whose `examName` equals the name of
the found exam.  When no exam has the id, `ex?.name` is `undefined` and
`s.examName !== undefined` holds for every student, so no student is dropped. -/
def onDeleteExam (st : AppState) (id : String) : AppState :=
  let ex := st.exams.find? (fun e => e.id == id)
  { exams := st.exams.filter (fun e => !(e.id == id))
    students :=
      match ex with
      | some e => st.students.filter (fun s => !(s.examName == e.name))
      | none => st.students }

/-- `onAddStudent` (source line 682): appends the (already normalized) record. -/
def onAddStudent (st : AppState) (s : Student) : AppState :=
  { st with students := st.students ++ [s] }

/-- The JS `String.prototype.trim`: strip leading and trailing whitespace. -/
def jsTrim (s : String) : String :=
  ⟨((s.data.dropWhile Char.isWhitespace).reverse.dropWhile Char.isWhitespace).reverse⟩

/-- The JS `String.prototype.toLowerCase`, on the ASCII fragment the records
use: lower-case every character. -/
def jsToLower (s : String) : String :=
  ⟨s.data.map Char.toLower⟩

/-- `onCheckResult` (source lines 673-676): find the first student whose
trimmed, lower-cased roll number equals the trimmed, lower-cased query and
whose exam name equals the selected exam exactly.  `none` is the
"Record not found" branch (an alert, not a failure). -/
def onCheckResult (students : List Student) (r ex : String) : Option Student :=
  students.find? (fun st =>
    jsToLower (jsTrim st.rollNo) == jsToLower (jsTrim r) && st.examName == ex)

/-! ### Extraction client and scan flow -/

/-- `extractStudentDetailsFromImage` (source lines 99-151), from the point the
provider response is in hand.  A transport / API error is re-thrown by the
`catch` block (`Except.error`).  On success the code parses
`response.text || "\x7b\x7d"`: an absent or empty `text` is replaced by the
literal two-character object string.  `parse` stands for `JSON.parse`
specialized to this payload; a parse exception escapes the same `catch` and
is re-thrown. -/
def extractStudentDetailsFromImage (response : Except Unit (Option String))
    (parse : String → Except Unit StudentInput) : Except Unit StudentInput :=
  match response with
  | .error e => .error e
  | .ok txt => parse (match txt with
      | none => "\x7b\x7d"
      | some t => if t = "" then "\x7b\x7d" else t)

/-- `captureAndScan` (source lines 225-246) together with the dashboard
handler `onScanComplete` (line 425), acting on the store: on success the extracted
record (with `examName` overridden by a fixed folder name, line 238) is handed
to the entry form; on failure an error message is shown and no record is
produced.  Neither branch invokes any store mutator, so the collections pass
through untouched. -/
def captureAndScan (st : AppState) (response : Except Unit (Option String))
    (parse : String → Except Unit StudentInput) (fixedExamName : Option String) :
    AppState × Option StudentInput × Option String :=
  match extractStudentDetailsFromImage response parse with
  | .ok extracted =>
      let extracted :=
        match fixedExamName with
        | some f => { extracted with examName := some f }
        | none => extracted
      (st, some extracted, none)
  | .error _ => (st, none, some "AI analysis failed. Please try a clearer photo.")

/-! ### Persistence load -/

/-- JS truthiness of `localStorage.getItem(k)`: `null` and `""` are falsy. -/
def jsTruthy (o : Option String) : Bool :=
  match o with
  | none => false
  | some s => !(s = "")

/-- The load effect of `App` (source lines 655-661).  `sRaw`/`eRaw` are the
stored blobs under `student_db`/`exam_db` (`none` = key absent);
`parseStudents`/`parseExams` stand for `JSON.parse` on the respective blob,
with `Except.error` for a thrown parse exception.  The two statements run in
order and there is no `try`/`catch`: an exception from the first parse aborts
the effect before the exam blob is even examined. -/
def initialLoad (sRaw eRaw : Option String)
    (parseStudents : String → Except Unit (List Student))
    (parseExams : String → Except Unit (List Exam)) : Except Unit AppState := do
  let students ← if jsTruthy sRaw then parseStudents (sRaw.getD "") else pure []
  let exams ← if jsTruthy eRaw then parseExams (eRaw.getD "") else pure []
  pure ⟨students, exams⟩

/-- A stand-in for `JSON.parse` restricted to the blobs used in the concrete
load theorems: the string `"[]"` is valid JSON denoting the empty array, and
the lone brace `"\x7b"` is malformed JSON, on which ECMAScript `JSON.parse`
throws a `SyntaxError`. -/
def jsonParseStudentsModel : String → Except Unit (List Student) :=
  fun s => if s = "[]" then .ok [] else .error ()

/-- The same stand-in for the exam blob. -/
def jsonParseExamsModel : String → Except Unit (List Exam) :=
  fun s => if s = "[]" then .ok [] else .error ()

/-! ### Helper lemmas and sample data -/

/-- An entirely absent input record. -/
def emptyInput : StudentInput := ⟨none, none, none, none, none, none⟩

/-- A stored record with padded roll number, used in the lookup example. -/
def sampleStudent : Student :=
  ⟨"s1", "Alice", " 2024-001 ", "10A", "Finals", zeroMarks, 0, 0, "F"⟩

/-- A second stored record belonging to a different exam folder. -/
def otherStudent : Student :=
  ⟨"s2", "Bob", "2024-002", "10A", "Midterm", zeroMarks, 0, 0, "F"⟩

lemma length_filter_not_add_countP {α : Type} (l : List α) (p : α → Bool) :
    (l.filter (fun a => !(p a))).length + l.countP p = l.length := by
  induction l with
  | nil => rfl
  | cons a l ih =>
      cases h : p a <;> simp [List.filter_cons, List.countP_cons, h] <;> omega

lemma floor_int_add_half (n : ℤ) : ⌊(n : ℚ) + 1 / 2⌋ = n := by
  rw [Int.floor_int_add]
  norm_num

lemma toFixed2_int_div_five (t : ℤ) : toFixed2 ((t : ℚ) / 5) = (t : ℚ) / 5 := by
  have h : ((t : ℚ) / 5) * 100 + 1 / 2 = ((20 * t : ℤ) : ℚ) + 1 / 2 := by
    push_cast; ring
  rw [toFixed2, h, floor_int_add_half]
  push_cast
  ring

/-! ### Claim theorems -/

/-- C1: every record produced by `processStudentData` (the single normalizer
through which `onAddStudent` and `onUpdateStudent` call sites pass) has
derived fields consistent with its marks: `total` is the sum of the five
subject slots of the final marks with non-numeric (and absent) values counted
as 0, `percentage` is `total / 5` taken to two decimals, and `grade` is the
classification of that percentage. -/
theorem c1_normalized_derived_fields_consistent (freshId : String) (data : StudentInput) :
    (processStudentData freshId data).total = marksTotal (processStudentData freshId data).marks ∧
    (processStudentData freshId data).percentage =
      toFixed2 ((processStudentData freshId data).total / 5) ∧
    (processStudentData freshId data).grade =
      calculateGrade (processStudentData freshId data).percentage := by
  refine ⟨?_, rfl, rfl⟩
  simp [processStudentData, marksReduce_eq_marksTotal]

/-- C3 counterexample: the claim says a partially populated marks object is
completed so that the output marks has all five subject keys present, absent
keys filled with 0 and non-numeric values coerced to 0.  The code stores the
incoming marks object unchanged (`marks: m` on line 175, where `m` is
`data.marks` itself whenever `data.marks` is present): on input marks
`\x7b math: 95, computer: <non-numeric> \x7d` the output marks still has
`science` absent and `computer` non-numeric. -/
theorem c3_marks_not_completed_counterexample :
    (processStudentData "u1"
        { emptyInput with marks := some ⟨some (.num 95), none, none, none, some .nonnum⟩ }).marks.science
        = none ∧
    (processStudentData "u1"
        { emptyInput with marks := some ⟨some (.num 95), none, none, none, some .nonnum⟩ }).marks.computer
        = some .nonnum :=
  ⟨rfl, rfl⟩

/-- C3 amended: a missing marks object defaults to the all-zero Marks object;
a present marks object is stored unchanged (absent subject keys remain absent
and non-numeric values are not rewritten), but the derived `total` counts each
absent key and each non-numeric value as 0.  The normalizer is a total
function: it never fails on any input. -/
theorem c3_marks_defaulting_amended (fresh : String) (data : StudentInput) (m : MarksObj) :
    (processStudentData fresh { data with marks := none }).marks = zeroMarks ∧
    (processStudentData fresh { data with marks := some m }).marks = m ∧
    (processStudentData fresh { data with marks := some m }).total = marksTotal m := by
  refine ⟨rfl, rfl, ?_⟩
  simp [processStudentData, marksReduce_eq_marksTotal]

/-- C5: `calculateGrade` evaluates its thresholds top-down with inclusive
bounds, yields a value for every rational input by construction, and takes the
claimed values at the four boundary points 90.00, 89.99, 35.00, 34.99. -/
theorem c5_grade_classification :
    (∀ p : ℚ,
      (90 ≤ p → calculateGrade p = "A+") ∧
      (80 ≤ p → p < 90 → calculateGrade p = "A") ∧
      (70 ≤ p → p < 80 → calculateGrade p = "B") ∧
      (55 ≤ p → p < 70 → calculateGrade p = "C") ∧
      (35 ≤ p → p < 55 → calculateGrade p = "D") ∧
      (p < 35 → calculateGrade p = "F")) ∧
    calculateGrade 90 = "A+" ∧ calculateGrade 89.99 = "A" ∧
    calculateGrade 35 = "D" ∧ calculateGrade 34.99 = "F" := by
  constructor
  · intro p
    refine ⟨fun h1 => ?_, fun h1 h2 => ?_, fun h1 h2 => ?_, fun h1 h2 => ?_,
      fun h1 h2 => ?_, fun h1 => ?_⟩ <;>
      · simp only [calculateGrade, ge_iff_le]
        split_ifs <;> first | rfl | linarith
  · refine ⟨?_, ?_, ?_, ?_⟩ <;> norm_num [calculateGrade]

/-- C5 witness: the threshold clauses applied at the concrete input 95. -/
theorem c5_grade_classification_witness : calculateGrade 95 = "A+" :=
  (c5_grade_classification.1 95).1 (by norm_num)

lemma process_total_ofInts (fresh : String) (data : StudentInput) (a b c d e : ℤ) :
    (processStudentData fresh { data with marks := some (MarksObj.ofInts a b c d e) }).total
      = ((a + b + c + d + e : ℤ) : ℚ) := by
  simp [processStudentData, marksReduce_eq_marksTotal, marksTotal, MarksObj.ofInts, jsNumOr0]

lemma process_percentage_ofInts (fresh : String) (data : StudentInput) (a b c d e : ℤ) :
    (processStudentData fresh { data with marks := some (MarksObj.ofInts a b c d e) }).percentage
      = ((a + b + c + d + e : ℤ) : ℚ) / 5 := by
  have h : (processStudentData fresh
      { data with marks := some (MarksObj.ofInts a b c d e) }).percentage
      = toFixed2 ((processStudentData fresh
          { data with marks := some (MarksObj.ofInts a b c d e) }).total / 5) := rfl
  rw [h, process_total_ofInts, toFixed2_int_div_five]

lemma process_grade_def (fresh : String) (data : StudentInput) :
    (processStudentData fresh data).grade
      = calculateGrade (processStudentData fresh data).percentage := rfl

/-- C6: for five integer scores in [0,100] the computed total is their sum
and is at most 500, and the computed percentage — `total / 5` rounded
half-up to two decimals — equals `total / 5` exactly; on the example marks
(95, 92, 88, 90, 85) the result is total 450, percentage 90, grade A+. -/
theorem c6_total_and_percentage (fresh : String) (data : StudentInput) (a b c d e : ℤ)
    (ha0 : 0 ≤ a) (ha1 : a ≤ 100) (hb0 : 0 ≤ b) (hb1 : b ≤ 100)
    (hc0 : 0 ≤ c) (hc1 : c ≤ 100) (hd0 : 0 ≤ d) (hd1 : d ≤ 100)
    (he0 : 0 ≤ e) (he1 : e ≤ 100) :
    (processStudentData fresh { data with marks := some (MarksObj.ofInts a b c d e) }).total
        = ((a + b + c + d + e : ℤ) : ℚ) ∧
    (processStudentData fresh { data with marks := some (MarksObj.ofInts a b c d e) }).total
        ≤ 500 ∧
    (processStudentData fresh { data with marks := some (MarksObj.ofInts a b c d e) }).percentage
        = toFixed2 (((a + b + c + d + e : ℤ) : ℚ) / 5) ∧
    (processStudentData fresh { data with marks := some (MarksObj.ofInts a b c d e) }).percentage
        = ((a + b + c + d + e : ℤ) : ℚ) / 5 ∧
    (processStudentData "u1" { emptyInput with marks := some (MarksObj.ofInts 95 92 88 90 85) }).total
        = 450 ∧
    (processStudentData "u1" { emptyInput with marks := some (MarksObj.ofInts 95 92 88 90 85) }).percentage
        = 90 ∧
    (processStudentData "u1" { emptyInput with marks := some (MarksObj.ofInts 95 92 88 90 85) }).grade
        = "A+" := by
  have hperc : (processStudentData fresh
      { data with marks := some (MarksObj.ofInts a b c d e) }).percentage
      = toFixed2 (((a + b + c + d + e : ℤ) : ℚ) / 5) := by
    show toFixed2 ((processStudentData fresh
      { data with marks := some (MarksObj.ofInts a b c d e) }).total / 5) = _
    rw [process_total_ofInts]
  refine ⟨process_total_ofInts fresh data a b c d e, ?_, hperc,
    process_percentage_ofInts fresh data a b c d e, ?_, ?_, ?_⟩
  · rw [process_total_ofInts]
    have h500 : ((a + b + c + d + e : ℤ) : ℚ) ≤ ((500 : ℤ) : ℚ) := by
      exact_mod_cast by omega
    simpa using h500
  · rw [process_total_ofInts]
    norm_num
  · rw [process_percentage_ofInts]
    norm_num
  · rw [process_grade_def, process_percentage_ofInts]
    norm_num [calculateGrade]

/-- C6 witness: the theorem applied to the example marks (95, 92, 88, 90, 85). -/
theorem c6_total_and_percentage_witness :
    (processStudentData "u1"
        { emptyInput with marks := some (MarksObj.ofInts 95 92 88 90 85) }).total = 450 :=
  (c6_total_and_percentage "u1" emptyInput 95 92 88 90 85 (by norm_num) (by norm_num)
    (by norm_num) (by norm_num) (by norm_num) (by norm_num) (by norm_num) (by norm_num)
    (by norm_num) (by norm_num)).2.2.2.2.1

/-- C9: the normalizer is idempotent on `id`, `marks`, `total`, `percentage`
and `grade`: re-normalizing a normalized record (every field now present)
changes none of them, provided the freshly generated id of the first pass is a
nonempty string (as a real UUID always is). -/
theorem c9_normalize_idempotent (fresh fresh2 : String) (x : StudentInput) (h : fresh ≠ "") :
    (processStudentData fresh2 (processStudentData fresh x).asInput).id
        = (processStudentData fresh x).id ∧
    (processStudentData fresh2 (processStudentData fresh x).asInput).marks
        = (processStudentData fresh x).marks ∧
    (processStudentData fresh2 (processStudentData fresh x).asInput).total
        = (processStudentData fresh x).total ∧
    (processStudentData fresh2 (processStudentData fresh x).asInput).percentage
        = (processStudentData fresh x).percentage ∧
    (processStudentData fresh2 (processStudentData fresh x).asInput).grade
        = (processStudentData fresh x).grade := by
  have hid : (processStudentData fresh x).id ≠ "" := by
    cases hx : x.id with
    | none => simpa [processStudentData, jsOrStr, hx] using h
    | some s =>
        by_cases hs : s = "" <;> simp [processStudentData, jsOrStr, hx, hs, h]
  refine ⟨?_, rfl, rfl, rfl, rfl⟩
  have hzid : (processStudentData fresh2 (processStudentData fresh x).asInput).id
      = jsOrStr (some (processStudentData fresh x).id) fresh2 := rfl
  rw [hzid, jsOrStr, if_neg hid]

/-- C9 witness: the idempotence theorem applied to the empty input with two
distinct fresh ids. -/
theorem c9_normalize_idempotent_witness :
    (processStudentData "u2" (processStudentData "u1" emptyInput).asInput).id
        = (processStudentData "u1" emptyInput).id ∧
    (processStudentData "u2" (processStudentData "u1" emptyInput).asInput).marks
        = (processStudentData "u1" emptyInput).marks ∧
    (processStudentData "u2" (processStudentData "u1" emptyInput).asInput).total
        = (processStudentData "u1" emptyInput).total ∧
    (processStudentData "u2" (processStudentData "u1" emptyInput).asInput).percentage
        = (processStudentData "u1" emptyInput).percentage ∧
    (processStudentData "u2" (processStudentData "u1" emptyInput).asInput).grade
        = (processStudentData "u1" emptyInput).grade :=
  c9_normalize_idempotent "u1" "u2" emptyInput (by decide)

/-- Demo exam folders and store used to instantiate the store theorems. -/
def demoExam1 : Exam := ⟨"e1", "Finals", "t1"⟩

/-- A second exam folder with a different id and name. -/
def demoExam2 : Exam := ⟨"e2", "Midterm", "t2"⟩

/-- A store holding two exams and one student in each. -/
def demoState : AppState := ⟨[sampleStudent, otherStudent], [demoExam1, demoExam2]⟩

/-- C2: when an exam with the requested id is found, `onDeleteExam` removes
every exam with that id, the found exam is gone, the surviving students are
exactly those whose `examName` differs from the name of the deleted exam, and
the student count drops by exactly the number of matching students.  The two
collection updates happen in one synchronous handler, so the caller observes
them together. -/
theorem c2_delete_exam_cascades (st : AppState) (id : String) (ex : Exam)
    (h : st.exams.find? (fun e => e.id == id) = some ex) :
    (onDeleteExam st id).exams = st.exams.filter (fun e => !(e.id == id)) ∧
    ex ∉ (onDeleteExam st id).exams ∧
    (onDeleteExam st id).students = st.students.filter (fun s => !(s.examName == ex.name)) ∧
    (onDeleteExam st id).students.length
        + st.students.countP (fun s => s.examName == ex.name) = st.students.length := by
  have hpred : (ex.id == id) = true := by
    have hbeta := List.find?_some h
    exact hbeta
  refine ⟨rfl, ?_, ?_, ?_⟩
  · intro hmem
    have hkeep := (List.mem_filter.mp hmem).2
    simp [hpred] at hkeep
  · simp only [onDeleteExam, h]
  · simp only [onDeleteExam, h]
    exact length_filter_not_add_countP st.students _

/-- C2 witness: deleting the Finals folder from the demo store removes
exactly the one Finals student. -/
theorem c2_delete_exam_cascades_witness :
    (onDeleteExam demoState "e1").students.length
        + demoState.students.countP (fun s => s.examName == demoExam1.name)
        = demoState.students.length :=
  (c2_delete_exam_cascades demoState "e1" demoExam1 rfl).2.2.2

/-- C10: deleting by an id that matches no exam leaves the store unchanged:
`exams.find?` yields nothing, the exam filter keeps every exam, and the
student filter compares every `examName` against `undefined` and keeps every
student. -/
theorem c10_delete_missing_exam_noop (st : AppState) (id : String)
    (h : st.exams.find? (fun e => e.id == id) = none) :
    onDeleteExam st id = st := by
  have hall : ∀ e ∈ st.exams, ¬((e.id == id) = true) := fun e he =>
    List.find?_eq_none.mp h e he
  have hfilter : st.exams.filter (fun e => !(e.id == id)) = st.exams := by
    refine List.filter_eq_self.mpr (fun e he => ?_)
    cases hb : (e.id == id) with
    | false => simp
    | true => exact absurd hb (hall e he)
  obtain ⟨ss, es⟩ := st
  simp only [onDeleteExam, h]
  rw [hfilter]

/-- C10 witness: deleting an unknown id from the demo store is a no-op. -/
theorem c10_delete_missing_exam_noop_witness :
    onDeleteExam demoState "no-such-exam" = demoState :=
  c10_delete_missing_exam_noop demoState "no-such-exam" rfl

/-- C7: whatever `onCheckResult` returns is a stored record whose trimmed,
lower-cased roll number equals the trimmed, lower-cased query and whose exam
name equals the query exactly; the query (2024-001, Finals) matches the
stored record with padded roll number, and a query matching nothing returns
`none` (a normal negative result of the total lookup function). -/
theorem c7_lookup_trim_case_insensitive :
    (∀ (students : List Student) (r ex : String) (s : Student),
        onCheckResult students r ex = some s →
          s ∈ students ∧ jsToLower (jsTrim s.rollNo) = jsToLower (jsTrim r) ∧
            s.examName = ex) ∧
    onCheckResult [sampleStudent] "2024-001" "Finals" = some sampleStudent ∧
    onCheckResult [sampleStudent] "9999-999" "Finals" = none := by
  refine ⟨?_, by decide, by decide⟩
  intro students r ex s hfind
  have hmem := List.mem_of_find?_eq_some hfind
  have hp := List.find?_some hfind
  simp only [Bool.and_eq_true, beq_iff_eq] at hp
  exact ⟨hmem, hp.1, hp.2⟩

/-- C7 witness: the lookup theorem applied to the padded-roll example. -/
theorem c7_lookup_trim_case_insensitive_witness :
    sampleStudent ∈ [sampleStudent] ∧
    jsToLower (jsTrim sampleStudent.rollNo) = jsToLower (jsTrim "2024-001") ∧
    sampleStudent.examName = "Finals" :=
  c7_lookup_trim_case_insensitive.1 [sampleStudent] "2024-001" "Finals" sampleStudent
    (by decide)

/-- C8: a failed extraction attempt yields a definite failure signal and no
record, and the collections are untouched: a transport error is re-thrown, a
parse error on a nonempty response body is re-thrown, and in the failure case
the scan flow produces no candidate record, shows the retry message, and
passes the store through unchanged (the scanner has no access to any store
mutator; only the separate form-submit path writes to the store). -/
theorem c8_extraction_failure_isolated (st : AppState)
    (parse : String → Except Unit StudentInput) (fx : Option String) :
    (∀ resp, extractStudentDetailsFromImage resp parse = .error () →
        captureAndScan st resp parse fx
          = (st, none, some "AI analysis failed. Please try a clearer photo.")) ∧
    extractStudentDetailsFromImage (.error ()) parse = .error () ∧
    (∀ t, t ≠ "" → parse t = .error () →
        extractStudentDetailsFromImage (.ok (some t)) parse = .error ()) := by
  refine ⟨?_, rfl, ?_⟩
  · intro resp hfail
    simp [captureAndScan, hfail]
  · intro t ht hp
    simpa [extractStudentDetailsFromImage, ht] using hp

/-- C8 witness: a transport error against the empty store. -/
theorem c8_extraction_failure_isolated_witness :
    captureAndScan ⟨[], []⟩ (.error ()) (fun _ => .error ()) none
      = (⟨[], []⟩, none, some "AI analysis failed. Please try a clearer photo.") :=
  (c8_extraction_failure_isolated ⟨[], []⟩ (fun _ => .error ()) none).1 (.error ()) rfl

/-- C4 counterexample: the claim says a corrupt blob yields the empty
collection and startup does not fail.  With the student blob holding the
malformed JSON text consisting of a lone opening brace (on which ECMAScript
JSON.parse throws) and a valid empty exam blob, the load effect throws — the
parse exception is uncaught (source lines 655-661 contain no try/catch), and
the valid exam blob is never restored. -/
theorem c4_corrupt_load_throws_counterexample :
    initialLoad (some "\x7b") (some "[]") jsonParseStudentsModel jsonParseExamsModel
      = .error () := rfl

/-- C4 amended: absent keys yield empty collections and the load succeeds,
and valid blobs are restored as stored; but a corrupt student blob makes the
load effect throw (the in-memory collections merely remain at their initial
empty value because the effect died before assigning them). -/
theorem c4_load_behavior_amended (pS : String → Except Unit (List Student))
    (pE : String → Except Unit (List Exam)) :
    initialLoad none none pS pE = .ok ⟨[], []⟩ ∧
    (∀ s eRaw, s ≠ "" → pS s = .error () →
        initialLoad (some s) eRaw pS pE = .error ()) ∧
    (∀ s t ls le, s ≠ "" → t ≠ "" → pS s = .ok ls → pE t = .ok le →
        initialLoad (some s) (some t) pS pE = .ok ⟨ls, le⟩) := by
  refine ⟨rfl, ?_, ?_⟩
  · intro s eRaw hs hp
    simp [initialLoad, jsTruthy, hs, hp, Bind.bind, Except.bind]
  · intro s t ls le hs ht hps hpe
    simp [initialLoad, jsTruthy, hs, ht, hps, hpe, Bind.bind, Except.bind, pure, Except.pure]

/-- C4 witness: the amended load theorem applied to two valid empty blobs. -/
theorem c4_load_behavior_amended_witness :
    initialLoad (some "[]") (some "[]") jsonParseStudentsModel jsonParseExamsModel
      = .ok ⟨[], []⟩ :=
  (c4_load_behavior_amended jsonParseStudentsModel jsonParseExamsModel).2.2 "[]" "[]" [] []
    (by decide) (by decide) rfl rfl

end EduResult
